import Mathlib

/-!
Shallow embedding of the telemetry acquisition core of `fps-overlay`:
`hwinfo_reader.py` (shared-memory reader plus heuristic sensor classifier)
and `hardware_monitor.py` (OHM/LHM classifier, NVIDIA vendor feed, the
thermal-zone fallback, the tiered merge and the status report).

Modelling conventions:
* IEEE-754 doubles are modelled as rationals (`ℚ`).  Every comparison the
  source performs on finite float values (`<`, `>`, `==`) agrees with the
  order on `ℚ`; the `value == value` NaN guard in `get_all_ohm_stats` is
  redundant in the source (a NaN also fails the adjacent `value > 0` test)
  and is modelled as always true.
* Python `int(x)` (truncation toward zero) is `pyInt`.
* Python's substring test `pat in s` is `strContains s pat`; `s.lower()`
  is `strLower`, `s.strip()` is `strTrim`, `s.startswith(p)` is
  `strStarts` (ASCII, which covers every literal the source matches on).
* A Python dict with a fixed key set is a structure of `Option` fields:
  `key in d` is `isSome`, `d[key] = v` is a field update.
-/

/-- Leading-run test: `leadRun p s` is true when `p` is an initial segment
of `s` (helper for the substring test). -/
def leadRun : List Char → List Char → Bool
  | [], _ => true
  | _ :: _, [] => false
  | c :: cs, d :: ds => c == d && leadRun cs ds

/-- Substring occurrence test on character lists (Python `pat in s`). -/
def charsContain : List Char → List Char → Bool
  | [], pat => pat.isEmpty
  | c :: rest, pat => leadRun pat (c :: rest) || charsContain rest pat

/-- Python `pat in s` for strings. -/
def strContains (s pat : String) : Bool :=
  charsContain s.data pat.data

/-- Python `s.startswith(pat)`. -/
def strStarts (s pat : String) : Bool :=
  leadRun pat.data s.data

/-- Python `s.lower()` (ASCII case folding). -/
def strLower (s : String) : String :=
  ⟨s.data.map Char.toLower⟩

/-- Python `s.strip()` (whitespace removed at both ends). -/
def strTrim (s : String) : String :=
  ⟨((s.data.dropWhile Char.isWhitespace).reverse.dropWhile Char.isWhitespace).reverse⟩

/-- Python `int(x)` on a float: truncation toward zero. -/
def pyInt (q : ℚ) : ℤ :=
  if q < 0 then Rat.ceil q else Rat.floor q

/-- First-present choice between two optional values: the value of `x`
when `x` is present, otherwise `y`.  This is the single combinator behind
both dict-merge idioms of `HardwareMonitor.get_stats`:
`if k in d: stats.f = d[k]` is `firstSome d.f stats.f`, and the gap-fill
`if stats.f is None and k in d: stats.f = d[k]` is `firstSome stats.f d.f`. -/
def firstSome {α : Type} (x y : Option α) : Option α :=
  match x with
  | some v => some v
  | none => y

/-! ## `hwinfo_reader.py`: sensor data model -/

/-- Sensor type tag `SENSOR_TYPE_TEMP` of `hwinfo_reader.py`. -/
def SENSOR_TYPE_TEMP : Nat := 1

/-- Sensor type tag `SENSOR_TYPE_FAN`. -/
def SENSOR_TYPE_FAN : Nat := 3

/-- Sensor type tag `SENSOR_TYPE_CLOCK`. -/
def SENSOR_TYPE_CLOCK : Nat := 6

/-- Sensor type tag `SENSOR_TYPE_USAGE`. -/
def SENSOR_TYPE_USAGE : Nat := 7

/-- The `HWiNFOSensor` dataclass: one raw sensor reading. -/
structure HWiNFOSensor where
  id : Nat
  name : String
  label : String
  unit : String
  value : ℚ
  sensor_type : Nat
deriving DecidableEq

/-- Result dict of `HWiNFOReader.get_cpu_stats`. -/
structure CpuStats where
  cpu_temp : Option ℚ := none
  cpu_clock : Option ℚ := none
  cpu_fan : Option ℤ := none
deriving DecidableEq

/-- Result dict of `HWiNFOReader.get_gpu_stats`. -/
structure GpuStats where
  fps : Option ℚ := none
  gpu_temp : Option ℚ := none
  gpu_clock : Option ℚ := none
  gpu_fan : Option ℤ := none
  gpu_usage : Option ℚ := none
deriving DecidableEq

/-! ## `HWiNFOReader.get_cpu_stats` -/

/-- Loop body of `get_cpu_stats`: the accumulator is the `stats` dict
paired with the running `best_clock`. -/
def cpuStep (acc : CpuStats × ℚ) (s : HWiNFOSensor) : CpuStats × ℚ :=
  let name_lower := strLower s.name
  let label_lower := strLower s.label
  if s.sensor_type == SENSOR_TYPE_TEMP then
    if acc.1.cpu_temp.isNone then
      if strContains name_lower "ryzen" && strContains label_lower "tctl" then
        ({ acc.1 with cpu_temp := some s.value }, acc.2)
      else if strContains label_lower "cpu" || strContains label_lower "package" then
        ({ acc.1 with cpu_temp := some s.value }, acc.2)
      else acc
    else acc
  else if s.sensor_type == SENSOR_TYPE_CLOCK then
    if strContains name_lower "ryzen" || strContains name_lower "cpu" then
      if strContains label_lower "core" && decide (0 < s.value) then
        if acc.2 < s.value then (acc.1, s.value) else acc
      else acc
    else acc
  else if s.sensor_type == SENSOR_TYPE_FAN then
    if acc.1.cpu_fan.isNone && (strContains label_lower "cpu" || strContains label_lower "pump") then
      if 0 < s.value then ({ acc.1 with cpu_fan := some (pyInt s.value) }, acc.2) else acc
    else acc
  else acc

/-- `HWiNFOReader.get_cpu_stats` on a given reading list: run the loop,
then keep `best_clock` as `cpu_clock` when it is positive. -/
def get_cpu_stats (l : List HWiNFOSensor) : CpuStats :=
  if 0 < (l.foldl cpuStep ({}, 0)).2 then
    { (l.foldl cpuStep ({}, 0)).1 with cpu_clock := some (l.foldl cpuStep ({}, 0)).2 }
  else (l.foldl cpuStep ({}, 0)).1

/-! ## `HWiNFOReader.get_gpu_stats` -/

/-- FPS label test of the first loop of `get_gpu_stats`. -/
def fpsLabelMatch (s : HWiNFOSensor) : Bool :=
  let label_lower := strLower s.label
  strContains label_lower "framerate" || strContains label_lower "fullscreen fps"
    || strTrim label_lower == "fps"

/-- First loop of `get_gpu_stats`: scan all sensors for an FPS reading,
stopping once `fps` is present (the `break`). -/
def fpsScan (stats : GpuStats) : List HWiNFOSensor → GpuStats
  | [] => stats
  | s :: rest =>
    if stats.fps.isSome then stats
    else if fpsLabelMatch s then
      if 0 < s.value then fpsScan { stats with fps := some s.value } rest
      else fpsScan stats rest
    else fpsScan stats rest

/-- The `is_gpu` discrete-GPU name heuristic of `get_gpu_stats`. -/
def is_gpu_name (name_lower : String) : Bool :=
  strContains name_lower "radeon" || strContains name_lower "geforce"
    || strContains name_lower "nvidia" || strContains name_lower "rtx"
    || strContains name_lower "gtx" || strContains name_lower "arc"
    || strContains name_lower "rx " || strStarts (strTrim name_lower) "rx"

/-- Loop body of the second (per-GPU-field) loop of `get_gpu_stats`. -/
def gpuStep (stats : GpuStats) (s : HWiNFOSensor) : GpuStats :=
  let name_lower := strLower s.name
  let label_lower := strLower s.label
  if !is_gpu_name name_lower then stats
  else if s.sensor_type == SENSOR_TYPE_TEMP then
    if stats.gpu_temp.isNone && (strContains label_lower "gpu" || strContains name_lower "gpu") then
      { stats with gpu_temp := some s.value }
    else stats
  else if s.sensor_type == SENSOR_TYPE_CLOCK then
    if stats.gpu_clock.isNone && (strContains label_lower "gpu" || strContains label_lower "core") then
      { stats with gpu_clock := some s.value }
    else stats
  else if s.sensor_type == SENSOR_TYPE_FAN then
    if stats.gpu_fan.isNone && (strContains label_lower "gpu" || strContains label_lower "fan") then
      { stats with gpu_fan := some (pyInt s.value) }
    else stats
  else if s.sensor_type == SENSOR_TYPE_USAGE then
    if stats.gpu_usage.isNone
        && ((strContains label_lower "gpu" && strContains label_lower "core")
            || strContains label_lower "d3d 3d") then
      { stats with gpu_usage := some s.value }
    else stats
  else stats

/-- `HWiNFOReader.get_gpu_stats` on a given reading list. -/
def get_gpu_stats (l : List HWiNFOSensor) : GpuStats :=
  l.foldl gpuStep (fpsScan {} l)

/-- Combined result dict of `HWiNFOReader.get_all_stats` (the CPU and GPU
dicts have disjoint key sets, so `dict.update` is a plain union). -/
structure HwDict where
  cpu_temp : Option ℚ := none
  cpu_clock : Option ℚ := none
  cpu_fan : Option ℤ := none
  fps : Option ℚ := none
  gpu_temp : Option ℚ := none
  gpu_clock : Option ℚ := none
  gpu_fan : Option ℤ := none
  gpu_usage : Option ℚ := none
deriving DecidableEq

/-- `HWiNFOReader.get_all_stats` on a given reading list. -/
def get_all_stats (l : List HWiNFOSensor) : HwDict :=
  let c := get_cpu_stats l
  let g := get_gpu_stats l
  { cpu_temp := c.cpu_temp, cpu_clock := c.cpu_clock, cpu_fan := c.cpu_fan,
    fps := g.fps, gpu_temp := g.gpu_temp, gpu_clock := g.gpu_clock,
    gpu_fan := g.gpu_fan, gpu_usage := g.gpu_usage }

/-! ## Acceptance candidates of the HWiNFO classifier

One function per category, read off the corresponding branch of
`get_cpu_stats` / `get_gpu_stats`: `some v` exactly when the reading
passes that category's rule and value filter, with `v` the stored value. -/

/-- CPU-temperature acceptance of `get_cpu_stats`. -/
def fCpuTemp (s : HWiNFOSensor) : Option ℚ :=
  if s.sensor_type == SENSOR_TYPE_TEMP then
    if strContains (strLower s.name) "ryzen" && strContains (strLower s.label) "tctl" then
      some s.value
    else if strContains (strLower s.label) "cpu" || strContains (strLower s.label) "package" then
      some s.value
    else none
  else none

/-- CPU-core-clock acceptance of `get_cpu_stats` (feeds `best_clock`). -/
def fCpuClockCand (s : HWiNFOSensor) : Option ℚ :=
  if s.sensor_type == SENSOR_TYPE_TEMP then none
  else if s.sensor_type == SENSOR_TYPE_CLOCK then
    if strContains (strLower s.name) "ryzen" || strContains (strLower s.name) "cpu" then
      if strContains (strLower s.label) "core" && decide (0 < s.value) then some s.value
      else none
    else none
  else none

/-- CPU-fan acceptance of `get_cpu_stats`. -/
def fCpuFan (s : HWiNFOSensor) : Option ℤ :=
  if s.sensor_type == SENSOR_TYPE_TEMP then none
  else if s.sensor_type == SENSOR_TYPE_CLOCK then none
  else if s.sensor_type == SENSOR_TYPE_FAN then
    if strContains (strLower s.label) "cpu" || strContains (strLower s.label) "pump" then
      if 0 < s.value then some (pyInt s.value) else none
    else none
  else none

/-- FPS acceptance of the first loop of `get_gpu_stats`. -/
def fFps (s : HWiNFOSensor) : Option ℚ :=
  if fpsLabelMatch s then
    if 0 < s.value then some s.value else none
  else none

/-- GPU-temperature acceptance of `get_gpu_stats`. -/
def fGpuTemp (s : HWiNFOSensor) : Option ℚ :=
  if !is_gpu_name (strLower s.name) then none
  else if s.sensor_type == SENSOR_TYPE_TEMP then
    if strContains (strLower s.label) "gpu" || strContains (strLower s.name) "gpu" then
      some s.value
    else none
  else none

/-- GPU-clock acceptance of `get_gpu_stats`. -/
def fGpuClock (s : HWiNFOSensor) : Option ℚ :=
  if !is_gpu_name (strLower s.name) then none
  else if s.sensor_type == SENSOR_TYPE_TEMP then none
  else if s.sensor_type == SENSOR_TYPE_CLOCK then
    if strContains (strLower s.label) "gpu" || strContains (strLower s.label) "core" then
      some s.value
    else none
  else none

/-- GPU-fan acceptance of `get_gpu_stats` (note: no positivity filter). -/
def fGpuFan (s : HWiNFOSensor) : Option ℤ :=
  if !is_gpu_name (strLower s.name) then none
  else if s.sensor_type == SENSOR_TYPE_TEMP then none
  else if s.sensor_type == SENSOR_TYPE_CLOCK then none
  else if s.sensor_type == SENSOR_TYPE_FAN then
    if strContains (strLower s.label) "gpu" || strContains (strLower s.label) "fan" then
      some (pyInt s.value)
    else none
  else none

/-- GPU-usage acceptance of `get_gpu_stats`. -/
def fGpuUsage (s : HWiNFOSensor) : Option ℚ :=
  if !is_gpu_name (strLower s.name) then none
  else if s.sensor_type == SENSOR_TYPE_TEMP then none
  else if s.sensor_type == SENSOR_TYPE_CLOCK then none
  else if s.sensor_type == SENSOR_TYPE_FAN then none
  else if s.sensor_type == SENSOR_TYPE_USAGE then
    if (strContains (strLower s.label) "gpu" && strContains (strLower s.label) "core")
        || strContains (strLower s.label) "d3d 3d" then
      some s.value
    else none
  else none

/-! ## `hardware_monitor.py`: the OHM/LHM (WMI namespace) classifier -/

/-- One sensor object of the OHM/LHM WMI namespace.  `Name`, `SensorType`
and `Parent` are the already-normalized strings of `get_all_ohm_stats`
(the source replaces a missing one by `""`); `Value` is `none` when the
object reports no value. -/
structure OhmSensor where
  Name : String
  SensorType : String
  Parent : String
  Value : Option ℚ
deriving DecidableEq

/-- Result dict of `WMIMonitor.get_all_ohm_stats` (`gpu_power` is read by
the merge but never written by the classifier). -/
structure OhmDict where
  cpu_temp : Option ℚ := none
  cpu_clock : Option ℚ := none
  cpu_fan_rpm : Option ℤ := none
  gpu_temp : Option ℚ := none
  gpu_clock : Option ℚ := none
  gpu_usage : Option ℚ := none
  gpu_fan_rpm : Option ℤ := none
  gpu_power : Option ℚ := none
deriving DecidableEq

/-- The `is_cpu_sensor` parent heuristic of `get_all_ohm_stats`. -/
def ohm_is_cpu (parent_lower : String) : Bool :=
  strContains parent_lower "cpu" || strContains parent_lower "ryzen"
    || strContains parent_lower "intel"

/-- The `is_gpu_sensor` parent heuristic of `get_all_ohm_stats`. -/
def ohm_is_gpu (parent_lower : String) : Bool :=
  strContains parent_lower "gpu" || strContains parent_lower "radeon"
    || strContains parent_lower "geforce" || strContains parent_lower "amd radeon"

/-- Loop body of `get_all_ohm_stats` (one namespace sensor object). -/
def ohmStep (stats : OhmDict) (s : OhmSensor) : OhmDict :=
  match s.Value with
  | none => stats
  | some value =>
    let name_lower := strLower s.Name
    let parent_lower := strLower s.Parent
    let is_cpu_sensor := ohm_is_cpu parent_lower
    let is_gpu_sensor := ohm_is_gpu parent_lower
    if s.SensorType == "Temperature" then
      if strContains name_lower "tctl" || strContains name_lower "tdie"
          || (strContains name_lower "core" && is_cpu_sensor) then
        if 0 < value then
          if stats.cpu_temp.isNone then { stats with cpu_temp := some value } else stats
        else stats
      else if strContains name_lower "gpu" && strContains name_lower "core" then
        { stats with gpu_temp := some value }
      else if is_gpu_sensor && strContains name_lower "core" then
        { stats with gpu_temp := some value }
      else stats
    else if s.SensorType == "Clock" then
      if is_cpu_sensor && strContains name_lower "core" then
        if 0 < value then
          if stats.cpu_clock.isNone then { stats with cpu_clock := some value } else stats
        else stats
      else if strContains name_lower "gpu" && strContains name_lower "core" then
        if 0 < value then { stats with gpu_clock := some value } else stats
      else if is_gpu_sensor && strContains name_lower "core" then
        if 0 < value then { stats with gpu_clock := some value } else stats
      else stats
    else if s.SensorType == "Fan" then
      if 0 < value then
        if strContains name_lower "cpu" || is_cpu_sensor then
          { stats with cpu_fan_rpm := some (pyInt value) }
        else if strContains name_lower "gpu" || is_gpu_sensor then
          { stats with gpu_fan_rpm := some (pyInt value) }
        else if strContains name_lower "fan" then
          if stats.cpu_fan_rpm.isNone then { stats with cpu_fan_rpm := some (pyInt value) }
          else stats
        else stats
      else stats
    else if s.SensorType == "Load" then
      if (strContains name_lower "gpu" && strContains name_lower "core")
          || (ohm_is_gpu parent_lower && strContains name_lower "core") then
        { stats with gpu_usage := some value }
      else stats
    else stats

/-- `WMIMonitor.get_all_ohm_stats`: empty dict when the namespace was
never adopted, otherwise one pass of `ohmStep` over the sensor objects. -/
def get_all_ohm_stats (ohm_available : Bool) (l : List OhmSensor) : OhmDict :=
  if !ohm_available then {} else l.foldl ohmStep {}

/-! ## Acceptance candidates of the OHM/LHM classifier -/

/-- OHM CPU-temperature acceptance (requires `value > 0`, no upper bound). -/
def fOhmCpuTemp (s : OhmSensor) : Option ℚ :=
  match s.Value with
  | none => none
  | some value =>
    if s.SensorType == "Temperature" then
      if strContains (strLower s.Name) "tctl" || strContains (strLower s.Name) "tdie"
          || (strContains (strLower s.Name) "core" && ohm_is_cpu (strLower s.Parent)) then
        if 0 < value then some value else none
      else none
    else none

/-- OHM GPU-temperature acceptance (NO value filter at all). -/
def fOhmGpuTemp (s : OhmSensor) : Option ℚ :=
  match s.Value with
  | none => none
  | some value =>
    if s.SensorType == "Temperature" then
      if strContains (strLower s.Name) "tctl" || strContains (strLower s.Name) "tdie"
          || (strContains (strLower s.Name) "core" && ohm_is_cpu (strLower s.Parent)) then
        none
      else if strContains (strLower s.Name) "gpu" && strContains (strLower s.Name) "core" then
        some value
      else if ohm_is_gpu (strLower s.Parent) && strContains (strLower s.Name) "core" then
        some value
      else none
    else none

/-- OHM CPU-clock acceptance. -/
def fOhmCpuClock (s : OhmSensor) : Option ℚ :=
  match s.Value with
  | none => none
  | some value =>
    if s.SensorType == "Temperature" then none
    else if s.SensorType == "Clock" then
      if ohm_is_cpu (strLower s.Parent) && strContains (strLower s.Name) "core" then
        if 0 < value then some value else none
      else none
    else none

/-- OHM GPU-clock acceptance. -/
def fOhmGpuClock (s : OhmSensor) : Option ℚ :=
  match s.Value with
  | none => none
  | some value =>
    if s.SensorType == "Temperature" then none
    else if s.SensorType == "Clock" then
      if ohm_is_cpu (strLower s.Parent) && strContains (strLower s.Name) "core" then none
      else if strContains (strLower s.Name) "gpu" && strContains (strLower s.Name) "core" then
        if 0 < value then some value else none
      else if ohm_is_gpu (strLower s.Parent) && strContains (strLower s.Name) "core" then
        if 0 < value then some value else none
      else none
    else none

/-- OHM CPU-fan acceptance through the cpu-ish rule (overwriting). -/
def fOhmCpuFanC (s : OhmSensor) : Option ℤ :=
  match s.Value with
  | none => none
  | some value =>
    if s.SensorType == "Temperature" then none
    else if s.SensorType == "Clock" then none
    else if s.SensorType == "Fan" then
      if 0 < value then
        if strContains (strLower s.Name) "cpu" || ohm_is_cpu (strLower s.Parent) then
          some (pyInt value)
        else none
      else none
    else none

/-- OHM GPU-fan acceptance. -/
def fOhmGpuFan (s : OhmSensor) : Option ℤ :=
  match s.Value with
  | none => none
  | some value =>
    if s.SensorType == "Temperature" then none
    else if s.SensorType == "Clock" then none
    else if s.SensorType == "Fan" then
      if 0 < value then
        if strContains (strLower s.Name) "cpu" || ohm_is_cpu (strLower s.Parent) then none
        else if strContains (strLower s.Name) "gpu" || ohm_is_gpu (strLower s.Parent) then
          some (pyInt value)
        else none
      else none
    else none

/-- OHM generic-fan acceptance (fills `cpu_fan_rpm` only when absent). -/
def fOhmCpuFanG (s : OhmSensor) : Option ℤ :=
  match s.Value with
  | none => none
  | some value =>
    if s.SensorType == "Temperature" then none
    else if s.SensorType == "Clock" then none
    else if s.SensorType == "Fan" then
      if 0 < value then
        if strContains (strLower s.Name) "cpu" || ohm_is_cpu (strLower s.Parent) then none
        else if strContains (strLower s.Name) "gpu" || ohm_is_gpu (strLower s.Parent) then none
        else if strContains (strLower s.Name) "fan" then some (pyInt value)
        else none
      else none
    else none

/-- OHM GPU-usage acceptance (no value filter). -/
def fOhmGpuUsage (s : OhmSensor) : Option ℚ :=
  match s.Value with
  | none => none
  | some value =>
    if s.SensorType == "Temperature" then none
    else if s.SensorType == "Clock" then none
    else if s.SensorType == "Fan" then none
    else if s.SensorType == "Load" then
      if (strContains (strLower s.Name) "gpu" && strContains (strLower s.Name) "core")
          || (ohm_is_gpu (strLower s.Parent) && strContains (strLower s.Name) "core") then
        some value
      else none
    else none

/-! ## `hardware_monitor.py`: snapshot, NVIDIA feed, fallback, merge -/

/-- The `HardwareStats` dataclass (the Snapshot), with its defaults. -/
structure HardwareStats where
  cpu_name : Option String := none
  cpu_temp : Option ℚ := none
  cpu_usage : ℚ := 0
  cpu_clock : Option ℚ := none
  cpu_fan_rpm : Option ℤ := none
  gpu_name : Option String := none
  gpu_temp : Option ℚ := none
  gpu_usage : Option ℚ := none
  gpu_clock : Option ℚ := none
  gpu_memory_used : Option ℚ := none
  gpu_memory_total : Option ℚ := none
  gpu_fan_rpm : Option ℤ := none
  gpu_fan_percent : Option ℚ := none
  gpu_power : Option ℚ := none
  ram_usage : ℚ := 0
  ram_used_gb : ℚ := 0
  ram_total_gb : ℚ := 0
  fps : Option ℤ := none
deriving DecidableEq

/-- Result dict of `NvidiaMonitor.get_stats`. -/
structure NvDict where
  gpu_temp : Option ℚ := none
  gpu_usage : Option ℚ := none
  gpu_memory_used : Option ℚ := none
  gpu_memory_total : Option ℚ := none
  gpu_clock : Option ℚ := none
  gpu_fan_percent : Option ℚ := none
deriving DecidableEq

/-- Outcomes of the five independent NVML queries of
`NvidiaMonitor.get_stats`: `none` models the query raising (its
`try/except` swallows the error).  The memory query returns used and
total together, so it is one outcome carrying both byte counts. -/
structure NvQueries where
  temp : Option ℚ := none
  util : Option ℚ := none
  mem : Option (ℚ × ℚ) := none
  clock : Option ℚ := none
  fan : Option ℚ := none
deriving DecidableEq

/-- `NvidiaMonitor.get_stats`: empty when not initialized or without a
device handle; otherwise each metric is stored independently, memory in
gigabytes (bytes divided by `1024 ^ 3`). -/
def NvidiaMonitor_get_stats (initialized handleOk : Bool) (q : NvQueries) : NvDict :=
  if !initialized || !handleOk then {}
  else
    { gpu_temp := q.temp,
      gpu_usage := q.util,
      gpu_memory_used := q.mem.map (fun m => m.1 / 1024 ^ 3),
      gpu_memory_total := q.mem.map (fun m => m.2 / 1024 ^ 3),
      gpu_clock := q.clock,
      gpu_fan_percent := q.fan }

/-- `WMIMonitor.get_cpu_temp_from_wmi`: the OS-native thermal-zone
fallback.  `tz` is the raw `CurrentTemperature` (tenths of Kelvin) of the
first zone, `none` when the query fails or returns no zones.  The
converted Celsius value is accepted only strictly between 0 and 150. -/
def get_cpu_temp_from_wmi (initialized : Bool) (tz : Option ℚ) : Option ℚ :=
  if !initialized then none
  else
    match tz with
    | none => none
    | some raw =>
      if 0 < raw / 10 - 273.15 ∧ raw / 10 - 273.15 < 150 then some (raw / 10 - 273.15)
      else none

/-- `HardwareMonitor.get_stats`, with each feed's output supplied as an
argument: `ohm` is Tier A's classified dict (plus `tz` for the fallback),
`nv` Tier B's dict, `hw` Tier C's dict (`hwPresent` models whether the
`HWiNFOReader` object exists), and the psutil counters are Tier D. -/
def HardwareMonitor_get_stats (wmiInit : Bool) (cpuName gpuName : Option String)
    (ohm : OhmDict) (tz : Option ℚ)
    (nvInit : Bool) (nv : NvDict)
    (hwPresent : Bool) (hw : HwDict)
    (cpuUsagePercent ramPercent ramUsedBytes ramTotalBytes : ℚ) : HardwareStats :=
  let s0 : HardwareStats := {}
  let s1 := { s0 with cpu_usage := cpuUsagePercent, ram_usage := ramPercent,
                      ram_used_gb := ramUsedBytes / 1024 ^ 3,
                      ram_total_gb := ramTotalBytes / 1024 ^ 3 }
  let s2 := if wmiInit then
      { s1 with cpu_name := firstSome cpuName s1.cpu_name,
                gpu_name := firstSome gpuName s1.gpu_name }
    else s1
  let s3 := if wmiInit then
      let t := { s2 with
        cpu_temp := firstSome ohm.cpu_temp s2.cpu_temp,
        cpu_clock := firstSome ohm.cpu_clock s2.cpu_clock,
        cpu_fan_rpm := firstSome ohm.cpu_fan_rpm s2.cpu_fan_rpm,
        gpu_temp := firstSome ohm.gpu_temp s2.gpu_temp,
        gpu_clock := firstSome ohm.gpu_clock s2.gpu_clock,
        gpu_usage := firstSome ohm.gpu_usage s2.gpu_usage,
        gpu_fan_rpm := firstSome ohm.gpu_fan_rpm s2.gpu_fan_rpm,
        gpu_power := firstSome ohm.gpu_power s2.gpu_power }
      if t.cpu_temp.isNone then { t with cpu_temp := get_cpu_temp_from_wmi wmiInit tz }
      else t
    else s2
  let s4 := if nvInit then
      { s3 with gpu_temp := firstSome nv.gpu_temp s3.gpu_temp,
                gpu_usage := firstSome nv.gpu_usage s3.gpu_usage,
                gpu_memory_used := firstSome nv.gpu_memory_used s3.gpu_memory_used,
                gpu_memory_total := firstSome nv.gpu_memory_total s3.gpu_memory_total,
                gpu_clock := firstSome nv.gpu_clock s3.gpu_clock,
                gpu_fan_percent := firstSome nv.gpu_fan_percent s3.gpu_fan_percent }
    else s3
  let s5 := if hwPresent then
      let u := { s4 with
        cpu_temp := firstSome s4.cpu_temp hw.cpu_temp,
        cpu_clock := firstSome s4.cpu_clock hw.cpu_clock,
        cpu_fan_rpm := firstSome s4.cpu_fan_rpm hw.cpu_fan,
        gpu_temp := firstSome s4.gpu_temp hw.gpu_temp,
        gpu_usage := firstSome s4.gpu_usage hw.gpu_usage,
        gpu_clock := firstSome s4.gpu_clock hw.gpu_clock,
        gpu_fan_rpm := firstSome s4.gpu_fan_rpm hw.gpu_fan }
      match hw.fps with
      | some v => if 1 < v then { u with fps := some (pyInt v) } else u
      | none => u
    else s4
  s5

/-- `HardwareMonitor.get_status_info`: the backend availability map, in
source order, as an association list. -/
def get_status_info (nvInit wmiInit ohmAvail : Bool) : List (String × Bool) :=
  [("nvml", nvInit), ("wmi", wmiInit), ("ohm_lhm", if wmiInit then ohmAvail else false)]

/-! ## `hwinfo_reader.py`: shared-memory mapping and `read_sensors`

The reader's own fields (`handle`, `map_address`, `kernel32`,
`initialized`) form `ReaderState`; the OS side is `MapEnv`: whether
`OpenFileMappingW` / `MapViewOfFile` currently succeed, a counter issuing
fresh ids, and the lists of currently open mapping handles and mapped
views (for leak accounting; `CloseHandle` / `UnmapViewOfFile` on an id
not in the list is the harmless failure of closing twice).  Bytes of the
mapped region are a `List Nat`; `struct.unpack` of an IEEE-754 double is
abstracted as an arbitrary `decodeF64` parameter (no claim depends on
it), and the permissive UTF-8 decode as a byte-wise code-point map. -/

/-- Instance state of `HWiNFOReader`. -/
structure ReaderState where
  handle : Option Nat := none
  map_address : Option Nat := none
  kernel32 : Bool := false
  initialized : Bool := false
deriving DecidableEq

/-- OS-side state of the named shared-memory object. -/
structure MapEnv where
  canOpen : Bool
  canMap : Bool
  nextId : Nat
  openHandles : List Nat
  openViews : List Nat
deriving DecidableEq

/-- `HWiNFOReader._close`: unmap and close whatever is held (only when
`kernel32` was obtained), then reset the fields. -/
def reader_close (r : ReaderState) (env : MapEnv) : ReaderState × MapEnv :=
  let env := match r.map_address, r.kernel32 with
    | some v, true => { env with openViews := env.openViews.erase v }
    | _, _ => env
  let env := match r.handle, r.kernel32 with
    | some h, true => { env with openHandles := env.openHandles.erase h }
    | _, _ => env
  ({ r with handle := none, map_address := none, initialized := false }, env)

/-- `HWiNFOReader._init_shared_memory`: clean up any previous mapping,
then open the file mapping and map the view; on map failure the opened
handle is closed at the OS level but stays recorded in `self.handle`. -/
def init_shared_memory (r : ReaderState) (env : MapEnv) : ReaderState × MapEnv :=
  let (r, env) := reader_close r env
  if !env.canOpen then (r, env)
  else
    let h := env.nextId
    let env := { env with nextId := env.nextId + 1, openHandles := h :: env.openHandles }
    let r := { r with handle := some h }
    if !env.canMap then
      (r, { env with openHandles := env.openHandles.erase h })
    else
      let v := env.nextId
      let env := { env with nextId := env.nextId + 1, openViews := v :: env.openViews }
      ({ r with map_address := some v, initialized := true, kernel32 := true }, env)

/-- `HWiNFOReader._ensure_initialized`. -/
def ensure_initialized (r : ReaderState) (env : MapEnv) : Bool × ReaderState × MapEnv :=
  if r.initialized then (true, r, env)
  else
    let (r, env) := init_shared_memory r env
    (r.initialized, r, env)

/-- `HWiNFOReader._read_bytes`: empty when not initialized, else the
bytes of the mapped region from `offset`, at most `size` of them. -/
def read_bytes (r : ReaderState) (mem : List Nat) (offset size : Nat) : List Nat :=
  if !r.initialized then [] else (mem.drop offset).take size

/-- Little-endian 32-bit decode (`struct.unpack('<I', …)`) of the first
four bytes. -/
def readU32 (bs : List Nat) : Nat :=
  bs.getD 0 0 + 256 * (bs.getD 1 0 + 256 * (bs.getD 2 0 + 256 * (bs.getD 3 0)))

/-- Null-terminated permissive string decode
(`bytes.split(b'\x00')[0].decode('utf-8', errors='ignore')`), abstracted
byte-wise. -/
def decodeStr (bs : List Nat) : String :=
  ⟨(bs.takeWhile (fun b => b ≠ 0)).map Char.ofNat⟩

/-- The signature `"HWiS"` as a little-endian 32-bit value. -/
def HWINFO_SIGNATURE : Nat := 0x53695748

/-- Body of `read_sensors` after a full-length header was obtained:
verify the signature (resyncing once on mismatch and returning no
readings), else parse the sensor and reading tables. -/
def read_sensors_body (decodeF64 : List Nat → ℚ) (mem : List Nat)
    (r : ReaderState) (env : MapEnv) (header : List Nat) :
    List HWiNFOSensor × ReaderState × MapEnv :=
  if readU32 header ≠ HWINFO_SIGNATURE then
    let (r, env) := reader_close r env
    let (ok, r, env) := ensure_initialized r env
    if !ok then ([], r, env)
    else
      let header2 := read_bytes r mem 0 48
      if header2.length < 48 then ([], r, env)
      else ([], r, env)
  else
    let sensor_offset := readU32 (header.drop 20)
    let sensor_size := readU32 (header.drop 24)
    let sensor_count := readU32 (header.drop 28)
    let reading_offset := readU32 (header.drop 32)
    let reading_size := readU32 (header.drop 36)
    let reading_count := readU32 (header.drop 40)
    let sensor_names : List (Nat × String) :=
      (List.range sensor_count).filterMap (fun i =>
        let sensor_data := read_bytes r mem (sensor_offset + i * sensor_size)
          (min sensor_size 200)
        if sensor_data.length < 136 then none
        else some (i, decodeStr ((sensor_data.drop 8).take 128)))
    let sensors : List HWiNFOSensor :=
      (List.range reading_count).filterMap (fun i =>
        let reading_data := read_bytes r mem (reading_offset + i * reading_size)
          (min reading_size 300)
        if reading_data.length < 292 then none
        else
          some { id := readU32 (reading_data.drop 8),
                 name := (sensor_names.lookup (readU32 (reading_data.drop 4))).getD "Unknown",
                 label := decodeStr ((reading_data.drop 12).take 128),
                 unit := decodeStr ((reading_data.drop 268).take 16),
                 value := decodeF64 ((reading_data.drop 284).take 8),
                 sensor_type := readU32 reading_data })
    (sensors, r, env)

/-- `HWiNFOReader.read_sensors`: ensure the mapping, read the 48-byte
header (resyncing once when it is short), then hand over to the
signature check and table parse.  Total by construction: every failure
path returns the empty list, matching the source's outer `try/except`. -/
def read_sensors (decodeF64 : List Nat → ℚ) (mem : List Nat)
    (r : ReaderState) (env : MapEnv) : List HWiNFOSensor × ReaderState × MapEnv :=
  let (ok, r, env) := ensure_initialized r env
  if !ok then ([], r, env)
  else
    let header := read_bytes r mem 0 48
    if header.length < 48 then
      let (r, env) := reader_close r env
      let (ok, r, env) := ensure_initialized r env
      if !ok then ([], r, env)
      else
        let header := read_bytes r mem 0 48
        if header.length < 48 then ([], r, env)
        else read_sensors_body decodeF64 mem r env header
    else read_sensors_body decodeF64 mem r env header

/-! ## Proof development -/

example :
    get_cpu_stats
      [⟨1, "AMD Ryzen 9", "CPU Tctl/Tdie", "°C", 64, 1⟩,
       ⟨2, "AMD Ryzen 9", "Core 0 Clock", "MHz", 3000, 6⟩,
       ⟨3, "AMD Ryzen 9", "Core 1 Clock", "MHz", 4000, 6⟩]
    = { cpu_temp := some 64, cpu_clock := some 4000, cpu_fan := none } := by
  decide

example :
    get_gpu_stats
      [⟨1, "NVIDIA GeForce RTX", "GPU Temperature", "°C", 65, 1⟩,
       ⟨2, "PresentMon", "Framerate", "FPS", 144, 8⟩]
    = { fps := some 144, gpu_temp := some 65, gpu_clock := none,
        gpu_fan := none, gpu_usage := none } := by
  decide

/-! ## Generic characterizations of the classifier folds

The classifiers are single passes over the reading list that fill one
dict entry per category.  Depending on whether the source guards a write
with `key not in stats`, the kept value is the first or the last
acceptable reading; `best_clock` is a running maximum.  The lemmas below
characterize each shape of loop body once. -/

@[simp] theorem firstSome_none_left {α : Type} (y : Option α) : firstSome none y = y := rfl

@[simp] theorem firstSome_some_left {α : Type} (v : α) (y : Option α) :
    firstSome (some v) y = some v := rfl

@[simp] theorem firstSome_none_right {α : Type} (x : Option α) : firstSome x none = x := by
  cases x <;> rfl

theorem firstSome_assoc {α : Type} (x y z : Option α) :
    firstSome (firstSome x y) z = firstSome x (firstSome y z) := by
  cases x <;> rfl

theorem findSome?_cons_eq {α β : Type} (f : α → Option β) (a : α) (as : List α) :
    (a :: as).findSome? f = firstSome (f a) (as.findSome? f) := by
  cases h : f a <;> simp [List.findSome?_cons, h, firstSome]

theorem findSome?_append_eq {α β : Type} (f : α → Option β) (l₁ l₂ : List α) :
    (l₁ ++ l₂).findSome? f = firstSome (l₁.findSome? f) (l₂.findSome? f) := by
  induction l₁ with
  | nil => simp [firstSome]
  | cons a as ih => simp only [List.cons_append, findSome?_cons_eq, ih, firstSome_assoc]

/-- A loop body that writes a field only while it is absent keeps the
first acceptable reading. -/
theorem foldl_firstWins {σ α β : Type} (step : σ → α → σ) (get : σ → Option β)
    (f : α → Option β)
    (hstep : ∀ st a, get (step st a) = firstSome (get st) (f a)) :
    ∀ (l : List α) (st : σ), get (l.foldl step st) = firstSome (get st) (l.findSome? f) := by
  intro l
  induction l with
  | nil => intro st; simp [firstSome_none_right]
  | cons a as ih =>
    intro st
    rw [List.foldl_cons, ih, hstep, findSome?_cons_eq, ← firstSome_assoc]

/-- A loop body that writes a field unconditionally keeps the last
acceptable reading. -/
theorem foldl_lastWins {σ α β : Type} (step : σ → α → σ) (get : σ → Option β)
    (f : α → Option β)
    (hstep : ∀ st a, get (step st a) = firstSome (f a) (get st)) :
    ∀ (l : List α) (st : σ),
      get (l.foldl step st) = firstSome (l.reverse.findSome? f) (get st) := by
  intro l
  induction l with
  | nil => intro st; simp [firstSome]
  | cons a as ih =>
    intro st
    rw [List.foldl_cons, ih, hstep, List.reverse_cons, findSome?_append_eq,
      findSome?_cons_eq, List.findSome?_nil, firstSome_none_right, firstSome_assoc]

/-- A loop body with an unconditional rule (candidate `fC`) and a
fill-only-if-absent rule (candidate `fG`): the last `fC` match wins,
else the initial value, else the first `fG` match. -/
theorem foldl_mixedWins {σ α β : Type} (step : σ → α → σ) (get : σ → Option β)
    (fC fG : α → Option β)
    (hstep : ∀ st a, get (step st a) = firstSome (fC a) (firstSome (get st) (fG a))) :
    ∀ (l : List α) (st : σ),
      get (l.foldl step st)
        = firstSome (l.reverse.findSome? fC) (firstSome (get st) (l.findSome? fG)) := by
  intro l
  induction l with
  | nil => intro st; simp
  | cons a as ih =>
    intro st
    rw [List.foldl_cons, ih, hstep, List.reverse_cons, findSome?_append_eq,
      findSome?_cons_eq, findSome?_cons_eq, List.findSome?_nil, firstSome_none_right]
    cases hC : as.reverse.findSome? fC <;>
      cases hCa : fC a <;>
        simp [firstSome_assoc]

/-- A loop body that keeps a running maximum over acceptable readings. -/
theorem foldl_maxAcc {σ α : Type} (step : σ → α → σ) (get : σ → ℚ)
    (f : α → Option ℚ)
    (hstep : ∀ st a, get (step st a) = match f a with
      | some v => max (get st) v
      | none => get st) :
    ∀ (l : List α) (st : σ),
      get (l.foldl step st) = (l.filterMap f).foldl max (get st) := by
  intro l
  induction l with
  | nil => intro st; simp
  | cons a as ih =>
    intro st
    rw [List.foldl_cons, ih, hstep]
    cases h : f a <;> simp [List.filterMap_cons, h]

/-- A fold whose body never changes an observation keeps it. -/
theorem foldl_keeps {σ α β : Type} (step : σ → α → σ) (get : σ → β)
    (hstep : ∀ st a, get (step st a) = get st) :
    ∀ (l : List α) (st : σ), get (l.foldl step st) = get st := by
  intro l
  induction l with
  | nil => intro st; rfl
  | cons a as ih => intro st; rw [List.foldl_cons, ih, hstep]

theorem le_foldl_max (l : List ℚ) : ∀ b : ℚ, b ≤ l.foldl max b := by
  induction l with
  | nil => intro b; simp
  | cons c cs ih => intro b; exact le_trans (le_max_left b c) (ih (max b c))

/-! ## Per-category behaviour of the HWiNFO classifier loops -/

theorem cpuStep_cpu_temp (acc : CpuStats × ℚ) (s : HWiNFOSensor) :
    (cpuStep acc s).1.cpu_temp = firstSome acc.1.cpu_temp (fCpuTemp s) := by
  rcases acc with ⟨st, best⟩
  cases h : st.cpu_temp <;>
    simp only [cpuStep, fCpuTemp, h, Option.isNone_none, Option.isNone_some] <;>
      split_ifs <;> simp_all

theorem cpuStep_cpu_fan (acc : CpuStats × ℚ) (s : HWiNFOSensor) :
    (cpuStep acc s).1.cpu_fan = firstSome acc.1.cpu_fan (fCpuFan s) := by
  rcases acc with ⟨st, best⟩
  cases h : st.cpu_fan <;>
    simp only [cpuStep, fCpuFan, h, Option.isNone_none, Option.isNone_some] <;>
      split_ifs <;> simp_all

theorem cpuStep_cpu_clock (acc : CpuStats × ℚ) (s : HWiNFOSensor) :
    (cpuStep acc s).1.cpu_clock = acc.1.cpu_clock := by
  rcases acc with ⟨st, best⟩
  simp only [cpuStep] <;> split_ifs <;> simp_all

theorem cpuStep_best (acc : CpuStats × ℚ) (s : HWiNFOSensor) :
    (cpuStep acc s).2 = match fCpuClockCand s with
      | some v => max acc.2 v
      | none => acc.2 := by
  rcases acc with ⟨st, best⟩
  simp only [cpuStep, fCpuClockCand]
  split_ifs <;> simp_all <;> linarith

theorem foldl_cpuStep_cpu_clock (l : List HWiNFOSensor) :
    ∀ acc, (l.foldl cpuStep acc).1.cpu_clock = acc.1.cpu_clock := by
  induction l with
  | nil => intro acc; rfl
  | cons s rest ih => intro acc; rw [List.foldl_cons, ih, cpuStep_cpu_clock]

theorem fCpuClockCand_pos (s : HWiNFOSensor) (v : ℚ) (h : fCpuClockCand s = some v) :
    0 < v := by
  unfold fCpuClockCand at h
  split_ifs at h <;> simp_all

/-- `get_cpu_stats` keeps the first acceptable CPU temperature. -/
theorem get_cpu_stats_cpu_temp (l : List HWiNFOSensor) :
    (get_cpu_stats l).cpu_temp = l.findSome? fCpuTemp := by
  have h := foldl_firstWins cpuStep (fun acc => acc.1.cpu_temp) fCpuTemp
    cpuStep_cpu_temp l ({}, 0)
  unfold get_cpu_stats
  split <;> simpa using h

/-- `get_cpu_stats` keeps the first acceptable CPU fan reading. -/
theorem get_cpu_stats_cpu_fan (l : List HWiNFOSensor) :
    (get_cpu_stats l).cpu_fan = l.findSome? fCpuFan := by
  have h := foldl_firstWins cpuStep (fun acc => acc.1.cpu_fan) fCpuFan
    cpuStep_cpu_fan l ({}, 0)
  unfold get_cpu_stats
  split <;> simpa using h

/-- `get_cpu_stats` keeps the MAXIMUM acceptable CPU core clock
(`best_clock` is a running maximum, not a first match). -/
theorem get_cpu_stats_cpu_clock (l : List HWiNFOSensor) :
    (get_cpu_stats l).cpu_clock = (l.filterMap fCpuClockCand).max? := by
  have hbest := foldl_maxAcc cpuStep (fun acc => acc.2) fCpuClockCand
    cpuStep_best l ({}, 0)
  have hpos : ∀ v ∈ l.filterMap fCpuClockCand, 0 < v := by
    intro v hv
    rcases List.mem_filterMap.mp hv with ⟨s, _, hs⟩
    exact fCpuClockCand_pos s v hs
  unfold get_cpu_stats
  simp only at hbest
  cases hvs : l.filterMap fCpuClockCand with
  | nil =>
    rw [hvs] at hbest
    simp only [List.foldl_nil] at hbest
    split
    · next hlt => rw [hbest] at hlt; exact absurd hlt (lt_irrefl 0)
    · rw [foldl_cpuStep_cpu_clock]; rfl
  | cons a as =>
    have ha : 0 < a := hpos a (hvs ▸ List.mem_cons_self a as)
    rw [hvs] at hbest
    simp only [List.foldl_cons, max_eq_right (le_of_lt ha)] at hbest
    have hb : 0 < (l.foldl cpuStep ({}, 0)).2 := by
      rw [hbest]; exact lt_of_lt_of_le ha (le_foldl_max as a)
    split
    · show some ((l.foldl cpuStep ({}, 0)).2) = (a :: as).max?
      rw [hbest]
      rfl
    · next hnlt => exact absurd hb hnlt

theorem gpuStep_gpu_temp (st : GpuStats) (s : HWiNFOSensor) :
    (gpuStep st s).gpu_temp = firstSome st.gpu_temp (fGpuTemp s) := by
  cases h : st.gpu_temp <;>
    simp only [gpuStep, fGpuTemp, h, Option.isNone_none, Option.isNone_some] <;>
      split_ifs <;> simp_all

theorem gpuStep_gpu_clock (st : GpuStats) (s : HWiNFOSensor) :
    (gpuStep st s).gpu_clock = firstSome st.gpu_clock (fGpuClock s) := by
  cases h : st.gpu_clock <;>
    simp only [gpuStep, fGpuClock, h, Option.isNone_none, Option.isNone_some] <;>
      split_ifs <;> simp_all

theorem gpuStep_gpu_fan (st : GpuStats) (s : HWiNFOSensor) :
    (gpuStep st s).gpu_fan = firstSome st.gpu_fan (fGpuFan s) := by
  cases h : st.gpu_fan <;>
    simp only [gpuStep, fGpuFan, h, Option.isNone_none, Option.isNone_some] <;>
      split_ifs <;> simp_all

theorem gpuStep_gpu_usage (st : GpuStats) (s : HWiNFOSensor) :
    (gpuStep st s).gpu_usage = firstSome st.gpu_usage (fGpuUsage s) := by
  cases h : st.gpu_usage <;>
    simp only [gpuStep, fGpuUsage, h, Option.isNone_none, Option.isNone_some] <;>
      split_ifs <;> simp_all

theorem gpuStep_fps (st : GpuStats) (s : HWiNFOSensor) :
    (gpuStep st s).fps = st.fps := by
  simp only [gpuStep]
  split_ifs <;> simp_all

theorem foldl_gpuStep_fps (l : List HWiNFOSensor) :
    ∀ st, (l.foldl gpuStep st).fps = st.fps := by
  induction l with
  | nil => intro st; rfl
  | cons s rest ih => intro st; rw [List.foldl_cons, ih, gpuStep_fps]

/-- The FPS scan writes exactly the first acceptable FPS reading into the
`fps` entry and nothing else. -/
theorem fpsScan_eq (l : List HWiNFOSensor) :
    ∀ stats : GpuStats,
      fpsScan stats l = { stats with fps := firstSome stats.fps (l.findSome? fFps) } := by
  induction l with
  | nil => intro stats; cases stats; simp [fpsScan]
  | cons s rest ih =>
    intro stats
    rcases stats with ⟨f, t, c, fan, u⟩
    cases f with
    | some v => simp [fpsScan]
    | none =>
      rw [findSome?_cons_eq]
      by_cases h1 : fpsLabelMatch s
      · by_cases h2 : 0 < s.value
        · simp [fpsScan, h1, h2, ih, fFps]
        · simp [fpsScan, h1, h2, ih, fFps]
      · simp [fpsScan, h1, ih, fFps]

/-- `get_gpu_stats` keeps the first acceptable FPS reading. -/
theorem get_gpu_stats_fps (l : List HWiNFOSensor) :
    (get_gpu_stats l).fps = l.findSome? fFps := by
  rw [get_gpu_stats, foldl_gpuStep_fps, fpsScan_eq]
  rfl

/-- `get_gpu_stats` keeps the first acceptable GPU temperature. -/
theorem get_gpu_stats_gpu_temp (l : List HWiNFOSensor) :
    (get_gpu_stats l).gpu_temp = l.findSome? fGpuTemp := by
  rw [get_gpu_stats,
    foldl_firstWins gpuStep (fun st => st.gpu_temp) fGpuTemp gpuStep_gpu_temp l,
    fpsScan_eq]
  rfl

/-- `get_gpu_stats` keeps the first acceptable GPU clock. -/
theorem get_gpu_stats_gpu_clock (l : List HWiNFOSensor) :
    (get_gpu_stats l).gpu_clock = l.findSome? fGpuClock := by
  rw [get_gpu_stats,
    foldl_firstWins gpuStep (fun st => st.gpu_clock) fGpuClock gpuStep_gpu_clock l,
    fpsScan_eq]
  rfl

/-- `get_gpu_stats` keeps the first acceptable GPU fan reading. -/
theorem get_gpu_stats_gpu_fan (l : List HWiNFOSensor) :
    (get_gpu_stats l).gpu_fan = l.findSome? fGpuFan := by
  rw [get_gpu_stats,
    foldl_firstWins gpuStep (fun st => st.gpu_fan) fGpuFan gpuStep_gpu_fan l,
    fpsScan_eq]
  rfl

/-- `get_gpu_stats` keeps the first acceptable GPU usage reading. -/
theorem get_gpu_stats_gpu_usage (l : List HWiNFOSensor) :
    (get_gpu_stats l).gpu_usage = l.findSome? fGpuUsage := by
  rw [get_gpu_stats,
    foldl_firstWins gpuStep (fun st => st.gpu_usage) fGpuUsage gpuStep_gpu_usage l,
    fpsScan_eq]
  rfl

/-! ## Per-category behaviour of the OHM/LHM classifier loop -/

theorem ohmStep_cpu_temp (st : OhmDict) (s : OhmSensor) :
    (ohmStep st s).cpu_temp = firstSome st.cpu_temp (fOhmCpuTemp s) := by
  cases hv : s.Value <;>
    cases h : st.cpu_temp <;>
      simp only [ohmStep, fOhmCpuTemp, hv, h, Option.isNone_none, Option.isNone_some] <;>
        (try split_ifs) <;> simp_all

theorem ohmStep_cpu_clock (st : OhmDict) (s : OhmSensor) :
    (ohmStep st s).cpu_clock = firstSome st.cpu_clock (fOhmCpuClock s) := by
  cases hv : s.Value <;>
    cases h : st.cpu_clock <;>
      simp only [ohmStep, fOhmCpuClock, hv, h, Option.isNone_none, Option.isNone_some] <;>
        (try split_ifs) <;> simp_all

theorem ohmStep_gpu_temp (st : OhmDict) (s : OhmSensor) :
    (ohmStep st s).gpu_temp = firstSome (fOhmGpuTemp s) st.gpu_temp := by
  cases hv : s.Value <;>
    simp only [ohmStep, fOhmGpuTemp, hv] <;>
      (try split_ifs) <;> simp_all

theorem ohmStep_gpu_clock (st : OhmDict) (s : OhmSensor) :
    (ohmStep st s).gpu_clock = firstSome (fOhmGpuClock s) st.gpu_clock := by
  cases hv : s.Value <;>
    simp only [ohmStep, fOhmGpuClock, hv] <;>
      (try split_ifs) <;> simp_all

theorem ohmStep_gpu_usage (st : OhmDict) (s : OhmSensor) :
    (ohmStep st s).gpu_usage = firstSome (fOhmGpuUsage s) st.gpu_usage := by
  cases hv : s.Value <;>
    simp only [ohmStep, fOhmGpuUsage, hv] <;>
      (try split_ifs) <;> simp_all

theorem ohmStep_gpu_fan (st : OhmDict) (s : OhmSensor) :
    (ohmStep st s).gpu_fan_rpm = firstSome (fOhmGpuFan s) st.gpu_fan_rpm := by
  cases hv : s.Value <;>
    simp only [ohmStep, fOhmGpuFan, hv] <;>
      (try split_ifs) <;> simp_all

set_option maxHeartbeats 1000000 in

theorem ohmStep_cpu_fan (st : OhmDict) (s : OhmSensor) :
    (ohmStep st s).cpu_fan_rpm
      = firstSome (fOhmCpuFanC s) (firstSome st.cpu_fan_rpm (fOhmCpuFanG s)) := by
  cases hv : s.Value <;>
    cases h : st.cpu_fan_rpm <;>
      simp only [ohmStep, fOhmCpuFanC, fOhmCpuFanG, hv, h, Option.isNone_none,
        Option.isNone_some] <;>
        (try split_ifs) <;> simp_all

theorem ohmStep_gpu_power (st : OhmDict) (s : OhmSensor) :
    (ohmStep st s).gpu_power = st.gpu_power := by
  cases hv : s.Value <;>
    simp only [ohmStep, hv] <;>
      (try split_ifs) <;> simp_all

/-- OHM `cpu_temp` keeps the first acceptable reading. -/
theorem ohm_cpu_temp_char (l : List OhmSensor) :
    (get_all_ohm_stats true l).cpu_temp = l.findSome? fOhmCpuTemp := by
  rw [get_all_ohm_stats,
    show (!true) = false from rfl, if_neg (Bool.false_ne_true),
    foldl_firstWins ohmStep (fun st => st.cpu_temp) fOhmCpuTemp ohmStep_cpu_temp l]
  rfl

/-- OHM `cpu_clock` keeps the first acceptable reading. -/
theorem ohm_cpu_clock_char (l : List OhmSensor) :
    (get_all_ohm_stats true l).cpu_clock = l.findSome? fOhmCpuClock := by
  rw [get_all_ohm_stats,
    show (!true) = false from rfl, if_neg (Bool.false_ne_true),
    foldl_firstWins ohmStep (fun st => st.cpu_clock) fOhmCpuClock ohmStep_cpu_clock l]
  rfl

/-- OHM `gpu_temp` keeps the LAST acceptable reading (no absence guard). -/
theorem ohm_gpu_temp_char (l : List OhmSensor) :
    (get_all_ohm_stats true l).gpu_temp = l.reverse.findSome? fOhmGpuTemp := by
  rw [get_all_ohm_stats,
    show (!true) = false from rfl, if_neg (Bool.false_ne_true),
    foldl_lastWins ohmStep (fun st => st.gpu_temp) fOhmGpuTemp ohmStep_gpu_temp l]
  simp

/-- OHM `gpu_clock` keeps the LAST acceptable reading. -/
theorem ohm_gpu_clock_char (l : List OhmSensor) :
    (get_all_ohm_stats true l).gpu_clock = l.reverse.findSome? fOhmGpuClock := by
  rw [get_all_ohm_stats,
    show (!true) = false from rfl, if_neg (Bool.false_ne_true),
    foldl_lastWins ohmStep (fun st => st.gpu_clock) fOhmGpuClock ohmStep_gpu_clock l]
  simp

/-- OHM `gpu_usage` keeps the LAST acceptable reading. -/
theorem ohm_gpu_usage_char (l : List OhmSensor) :
    (get_all_ohm_stats true l).gpu_usage = l.reverse.findSome? fOhmGpuUsage := by
  rw [get_all_ohm_stats,
    show (!true) = false from rfl, if_neg (Bool.false_ne_true),
    foldl_lastWins ohmStep (fun st => st.gpu_usage) fOhmGpuUsage ohmStep_gpu_usage l]
  simp

/-- OHM `gpu_fan_rpm` keeps the LAST acceptable reading. -/
theorem ohm_gpu_fan_char (l : List OhmSensor) :
    (get_all_ohm_stats true l).gpu_fan_rpm = l.reverse.findSome? fOhmGpuFan := by
  rw [get_all_ohm_stats,
    show (!true) = false from rfl, if_neg (Bool.false_ne_true),
    foldl_lastWins ohmStep (fun st => st.gpu_fan_rpm) fOhmGpuFan ohmStep_gpu_fan l]
  simp

/-- OHM `cpu_fan_rpm`: the LAST cpu-ish fan wins, otherwise the FIRST
generic fan fills the gap. -/
theorem ohm_cpu_fan_char (l : List OhmSensor) :
    (get_all_ohm_stats true l).cpu_fan_rpm
      = firstSome (l.reverse.findSome? fOhmCpuFanC) (l.findSome? fOhmCpuFanG) := by
  rw [get_all_ohm_stats,
    show (!true) = false from rfl, if_neg (Bool.false_ne_true),
    foldl_mixedWins ohmStep (fun st => st.cpu_fan_rpm) fOhmCpuFanC fOhmCpuFanG
      ohmStep_cpu_fan l]
  simp

/-- OHM never writes `gpu_power`. -/
theorem ohm_gpu_power_char (l : List OhmSensor) :
    (get_all_ohm_stats true l).gpu_power = none := by
  rw [get_all_ohm_stats, show (!true) = false from rfl, if_neg (Bool.false_ne_true),
    foldl_keeps ohmStep (fun st => st.gpu_power) ohmStep_gpu_power l]

/-! ## Field-level behaviour of the tiered merge -/

theorem merge_gpu_temp (wmiInit : Bool) (cpuName gpuName : Option String)
    (ohm : OhmDict) (tz : Option ℚ) (nvInit : Bool) (nv : NvDict)
    (hwPresent : Bool) (hw : HwDict) (u r ru rt : ℚ) :
    (HardwareMonitor_get_stats wmiInit cpuName gpuName ohm tz nvInit nv
        hwPresent hw u r ru rt).gpu_temp
      = firstSome (if nvInit then nv.gpu_temp else none)
          (firstSome (if wmiInit then ohm.gpu_temp else none)
            (if hwPresent then hw.gpu_temp else none)) := by
  cases wmiInit <;> cases nvInit <;> cases hwPresent <;>
    simp only [HardwareMonitor_get_stats, Bool.false_eq_true, if_true, if_false,
      ite_true, ite_false] <;>
    (repeat' split) <;>
    simp_all [firstSome_assoc]

theorem merge_cpu_temp (wmiInit : Bool) (cpuName gpuName : Option String)
    (ohm : OhmDict) (tz : Option ℚ) (nvInit : Bool) (nv : NvDict)
    (hwPresent : Bool) (hw : HwDict) (u r ru rt : ℚ) :
    (HardwareMonitor_get_stats wmiInit cpuName gpuName ohm tz nvInit nv
        hwPresent hw u r ru rt).cpu_temp
      = firstSome
          (if wmiInit then firstSome ohm.cpu_temp (get_cpu_temp_from_wmi true tz) else none)
          (if hwPresent then hw.cpu_temp else none) := by
  cases wmiInit <;> cases nvInit <;> cases hwPresent <;>
    simp only [HardwareMonitor_get_stats, Bool.false_eq_true, if_true, if_false,
      ite_true, ite_false] <;>
    (repeat' split) <;>
    cases htemp : ohm.cpu_temp <;>
      simp_all [firstSome_assoc]

theorem merge_cpu_clock (wmiInit : Bool) (cpuName gpuName : Option String)
    (ohm : OhmDict) (tz : Option ℚ) (nvInit : Bool) (nv : NvDict)
    (hwPresent : Bool) (hw : HwDict) (u r ru rt : ℚ) :
    (HardwareMonitor_get_stats wmiInit cpuName gpuName ohm tz nvInit nv
        hwPresent hw u r ru rt).cpu_clock
      = firstSome (if wmiInit then ohm.cpu_clock else none)
          (if hwPresent then hw.cpu_clock else none) := by
  cases wmiInit <;> cases nvInit <;> cases hwPresent <;>
    simp only [HardwareMonitor_get_stats, Bool.false_eq_true, if_true, if_false,
      ite_true, ite_false] <;>
    (repeat' split) <;>
    simp_all [firstSome_assoc]

theorem merge_cpu_fan_rpm (wmiInit : Bool) (cpuName gpuName : Option String)
    (ohm : OhmDict) (tz : Option ℚ) (nvInit : Bool) (nv : NvDict)
    (hwPresent : Bool) (hw : HwDict) (u r ru rt : ℚ) :
    (HardwareMonitor_get_stats wmiInit cpuName gpuName ohm tz nvInit nv
        hwPresent hw u r ru rt).cpu_fan_rpm
      = firstSome (if wmiInit then ohm.cpu_fan_rpm else none)
          (if hwPresent then hw.cpu_fan else none) := by
  cases wmiInit <;> cases nvInit <;> cases hwPresent <;>
    simp only [HardwareMonitor_get_stats, Bool.false_eq_true, if_true, if_false,
      ite_true, ite_false] <;>
    (repeat' split) <;>
    simp_all [firstSome_assoc]

theorem merge_gpu_usage (wmiInit : Bool) (cpuName gpuName : Option String)
    (ohm : OhmDict) (tz : Option ℚ) (nvInit : Bool) (nv : NvDict)
    (hwPresent : Bool) (hw : HwDict) (u r ru rt : ℚ) :
    (HardwareMonitor_get_stats wmiInit cpuName gpuName ohm tz nvInit nv
        hwPresent hw u r ru rt).gpu_usage
      = firstSome (if nvInit then nv.gpu_usage else none)
          (firstSome (if wmiInit then ohm.gpu_usage else none)
            (if hwPresent then hw.gpu_usage else none)) := by
  cases wmiInit <;> cases nvInit <;> cases hwPresent <;>
    simp only [HardwareMonitor_get_stats, Bool.false_eq_true, if_true, if_false,
      ite_true, ite_false] <;>
    (repeat' split) <;>
    simp_all [firstSome_assoc]

theorem merge_gpu_clock (wmiInit : Bool) (cpuName gpuName : Option String)
    (ohm : OhmDict) (tz : Option ℚ) (nvInit : Bool) (nv : NvDict)
    (hwPresent : Bool) (hw : HwDict) (u r ru rt : ℚ) :
    (HardwareMonitor_get_stats wmiInit cpuName gpuName ohm tz nvInit nv
        hwPresent hw u r ru rt).gpu_clock
      = firstSome (if nvInit then nv.gpu_clock else none)
          (firstSome (if wmiInit then ohm.gpu_clock else none)
            (if hwPresent then hw.gpu_clock else none)) := by
  cases wmiInit <;> cases nvInit <;> cases hwPresent <;>
    simp only [HardwareMonitor_get_stats, Bool.false_eq_true, if_true, if_false,
      ite_true, ite_false] <;>
    (repeat' split) <;>
    simp_all [firstSome_assoc]

theorem merge_gpu_fan_rpm (wmiInit : Bool) (cpuName gpuName : Option String)
    (ohm : OhmDict) (tz : Option ℚ) (nvInit : Bool) (nv : NvDict)
    (hwPresent : Bool) (hw : HwDict) (u r ru rt : ℚ) :
    (HardwareMonitor_get_stats wmiInit cpuName gpuName ohm tz nvInit nv
        hwPresent hw u r ru rt).gpu_fan_rpm
      = firstSome (if wmiInit then ohm.gpu_fan_rpm else none)
          (if hwPresent then hw.gpu_fan else none) := by
  cases wmiInit <;> cases nvInit <;> cases hwPresent <;>
    simp only [HardwareMonitor_get_stats, Bool.false_eq_true, if_true, if_false,
      ite_true, ite_false] <;>
    (repeat' split) <;>
    simp_all [firstSome_assoc]

theorem merge_gpu_memory_used (wmiInit : Bool) (cpuName gpuName : Option String)
    (ohm : OhmDict) (tz : Option ℚ) (nvInit : Bool) (nv : NvDict)
    (hwPresent : Bool) (hw : HwDict) (u r ru rt : ℚ) :
    (HardwareMonitor_get_stats wmiInit cpuName gpuName ohm tz nvInit nv
        hwPresent hw u r ru rt).gpu_memory_used
      = (if nvInit then nv.gpu_memory_used else none) := by
  cases wmiInit <;> cases nvInit <;> cases hwPresent <;>
    simp only [HardwareMonitor_get_stats, Bool.false_eq_true, if_true, if_false,
      ite_true, ite_false] <;>
    (repeat' split) <;>
    simp_all [firstSome_assoc]

theorem merge_gpu_memory_total (wmiInit : Bool) (cpuName gpuName : Option String)
    (ohm : OhmDict) (tz : Option ℚ) (nvInit : Bool) (nv : NvDict)
    (hwPresent : Bool) (hw : HwDict) (u r ru rt : ℚ) :
    (HardwareMonitor_get_stats wmiInit cpuName gpuName ohm tz nvInit nv
        hwPresent hw u r ru rt).gpu_memory_total
      = (if nvInit then nv.gpu_memory_total else none) := by
  cases wmiInit <;> cases nvInit <;> cases hwPresent <;>
    simp only [HardwareMonitor_get_stats, Bool.false_eq_true, if_true, if_false,
      ite_true, ite_false] <;>
    (repeat' split) <;>
    simp_all [firstSome_assoc]

theorem merge_gpu_fan_percent (wmiInit : Bool) (cpuName gpuName : Option String)
    (ohm : OhmDict) (tz : Option ℚ) (nvInit : Bool) (nv : NvDict)
    (hwPresent : Bool) (hw : HwDict) (u r ru rt : ℚ) :
    (HardwareMonitor_get_stats wmiInit cpuName gpuName ohm tz nvInit nv
        hwPresent hw u r ru rt).gpu_fan_percent
      = (if nvInit then nv.gpu_fan_percent else none) := by
  cases wmiInit <;> cases nvInit <;> cases hwPresent <;>
    simp only [HardwareMonitor_get_stats, Bool.false_eq_true, if_true, if_false,
      ite_true, ite_false] <;>
    (repeat' split) <;>
    simp_all [firstSome_assoc]

theorem merge_gpu_power (wmiInit : Bool) (cpuName gpuName : Option String)
    (ohm : OhmDict) (tz : Option ℚ) (nvInit : Bool) (nv : NvDict)
    (hwPresent : Bool) (hw : HwDict) (u r ru rt : ℚ) :
    (HardwareMonitor_get_stats wmiInit cpuName gpuName ohm tz nvInit nv
        hwPresent hw u r ru rt).gpu_power
      = (if wmiInit then ohm.gpu_power else none) := by
  cases wmiInit <;> cases nvInit <;> cases hwPresent <;>
    simp only [HardwareMonitor_get_stats, Bool.false_eq_true, if_true, if_false,
      ite_true, ite_false] <;>
    (repeat' split) <;>
    simp_all [firstSome_assoc]

theorem merge_fps (wmiInit : Bool) (cpuName gpuName : Option String)
    (ohm : OhmDict) (tz : Option ℚ) (nvInit : Bool) (nv : NvDict)
    (hwPresent : Bool) (hw : HwDict) (u r ru rt : ℚ) :
    (HardwareMonitor_get_stats wmiInit cpuName gpuName ohm tz nvInit nv
        hwPresent hw u r ru rt).fps
      = (if hwPresent then
          match hw.fps with
          | some v => if 1 < v then some (pyInt v) else none
          | none => none
        else none) := by
  cases wmiInit <;> cases nvInit <;> cases hwPresent <;>
    simp only [HardwareMonitor_get_stats, Bool.false_eq_true, if_true, if_false,
      ite_true, ite_false] <;>
    (repeat' split) <;>
    simp_all [firstSome_assoc]

/-- C6: for every state of the mapped region, `read_sensors` is total
(never raises — it is a function into readings × state) and returns the
empty list on failure; in particular, when the 4-byte signature at
offset 0 does not match `"HWiS"` on two consecutive calls, both calls
return the empty reading list, the first mapping handle `h` is released
during the first call (it is no longer among the open handles
afterwards), and no duplicate mapping is leaked: at most one mapping
handle and one mapped view remain open after each call. -/
theorem c6_bad_signature_resync (decodeF64 : List Nat → ℚ) (mem : List Nat)
    (co cm : Bool) (n h m : Nat)
    (hmem : 48 ≤ mem.length)
    (hsig : readU32 (mem.take 48) ≠ HWINFO_SIGNATURE)
    (hh : h < n) (hm : m < n) :
    (read_sensors decodeF64 mem
        ⟨some h, some m, true, true⟩ ⟨co, cm, n, [h], [m]⟩).1 = []
    ∧ (read_sensors decodeF64 mem
        (read_sensors decodeF64 mem
          ⟨some h, some m, true, true⟩ ⟨co, cm, n, [h], [m]⟩).2.1
        (read_sensors decodeF64 mem
          ⟨some h, some m, true, true⟩ ⟨co, cm, n, [h], [m]⟩).2.2).1 = []
    ∧ h ∉ (read_sensors decodeF64 mem
        ⟨some h, some m, true, true⟩ ⟨co, cm, n, [h], [m]⟩).2.2.openHandles
    ∧ (read_sensors decodeF64 mem
        ⟨some h, some m, true, true⟩ ⟨co, cm, n, [h], [m]⟩).2.2.openHandles.length ≤ 1
    ∧ (read_sensors decodeF64 mem
        ⟨some h, some m, true, true⟩ ⟨co, cm, n, [h], [m]⟩).2.2.openViews.length ≤ 1
    ∧ (read_sensors decodeF64 mem
        (read_sensors decodeF64 mem
          ⟨some h, some m, true, true⟩ ⟨co, cm, n, [h], [m]⟩).2.1
        (read_sensors decodeF64 mem
          ⟨some h, some m, true, true⟩ ⟨co, cm, n, [h], [m]⟩).2.2).2.2.openHandles.length ≤ 1
    ∧ (read_sensors decodeF64 mem
        (read_sensors decodeF64 mem
          ⟨some h, some m, true, true⟩ ⟨co, cm, n, [h], [m]⟩).2.1
        (read_sensors decodeF64 mem
          ⟨some h, some m, true, true⟩ ⟨co, cm, n, [h], [m]⟩).2.2).2.2.openViews.length ≤ 1 := by
  cases co <;> cases cm <;>
    simp_all [read_sensors, read_sensors_body, ensure_initialized, init_shared_memory,
      reader_close, read_bytes, List.length_take, Nat.min_eq_left, hsig] <;>
    omega

/-! ## Auxiliary facts for the claim theorems -/

theorem findSome?_all {α β : Type} (f : α → Option β) (p : β → Bool)
    (h : ∀ a v, f a = some v → p v = true) :
    ∀ l : List α, ((l.findSome? f).all p) = true := by
  intro l
  induction l with
  | nil => rfl
  | cons a as ih =>
    rw [findSome?_cons_eq]
    cases hfa : f a
    · simpa using ih
    · simpa using h a _ hfa

theorem fOhmCpuTemp_pos (s : OhmSensor) (v : ℚ) (h : fOhmCpuTemp s = some v) : 0 < v := by
  unfold fOhmCpuTemp at h
  split at h
  · simp at h
  · split_ifs at h with h1 h2 h3
    · injection h with hh
      rw [← hh]
      exact h3
    all_goals simp at h

/-! ## Claim theorems -/

/-- C1: field-level merge rule of `get_stats`.  For every GPU/CPU
telemetry field other than CPU usage and the RAM fields, the Snapshot
holds Tier B's value (vendor GPU feed) if present, else Tier A's (the
OHM/LHM namespace feed, whose `cpu_temp` includes the OS-native
thermal-zone fallback attempted within that tier), else Tier C's (the
HWiNFO gap-fill), else nothing; in particular Tier B overrides Tier A on
`gpu_temp`, and Tier C never overwrites a present field. -/
theorem c1_merge_tier_rule (wmiInit : Bool) (cpuName gpuName : Option String)
    (ohm : OhmDict) (tz : Option ℚ) (nvInit : Bool) (nv : NvDict)
    (hwPresent : Bool) (hw : HwDict) (u r ru rt : ℚ) :
    (HardwareMonitor_get_stats wmiInit cpuName gpuName ohm tz nvInit nv
        hwPresent hw u r ru rt).cpu_temp
      = firstSome
          (if wmiInit then firstSome ohm.cpu_temp (get_cpu_temp_from_wmi true tz) else none)
          (if hwPresent then hw.cpu_temp else none)
    ∧ (HardwareMonitor_get_stats wmiInit cpuName gpuName ohm tz nvInit nv
        hwPresent hw u r ru rt).cpu_clock
      = firstSome (if wmiInit then ohm.cpu_clock else none)
          (if hwPresent then hw.cpu_clock else none)
    ∧ (HardwareMonitor_get_stats wmiInit cpuName gpuName ohm tz nvInit nv
        hwPresent hw u r ru rt).cpu_fan_rpm
      = firstSome (if wmiInit then ohm.cpu_fan_rpm else none)
          (if hwPresent then hw.cpu_fan else none)
    ∧ (HardwareMonitor_get_stats wmiInit cpuName gpuName ohm tz nvInit nv
        hwPresent hw u r ru rt).gpu_temp
      = firstSome (if nvInit then nv.gpu_temp else none)
          (firstSome (if wmiInit then ohm.gpu_temp else none)
            (if hwPresent then hw.gpu_temp else none))
    ∧ (HardwareMonitor_get_stats wmiInit cpuName gpuName ohm tz nvInit nv
        hwPresent hw u r ru rt).gpu_usage
      = firstSome (if nvInit then nv.gpu_usage else none)
          (firstSome (if wmiInit then ohm.gpu_usage else none)
            (if hwPresent then hw.gpu_usage else none))
    ∧ (HardwareMonitor_get_stats wmiInit cpuName gpuName ohm tz nvInit nv
        hwPresent hw u r ru rt).gpu_clock
      = firstSome (if nvInit then nv.gpu_clock else none)
          (firstSome (if wmiInit then ohm.gpu_clock else none)
            (if hwPresent then hw.gpu_clock else none))
    ∧ (HardwareMonitor_get_stats wmiInit cpuName gpuName ohm tz nvInit nv
        hwPresent hw u r ru rt).gpu_memory_used
      = (if nvInit then nv.gpu_memory_used else none)
    ∧ (HardwareMonitor_get_stats wmiInit cpuName gpuName ohm tz nvInit nv
        hwPresent hw u r ru rt).gpu_memory_total
      = (if nvInit then nv.gpu_memory_total else none)
    ∧ (HardwareMonitor_get_stats wmiInit cpuName gpuName ohm tz nvInit nv
        hwPresent hw u r ru rt).gpu_fan_rpm
      = firstSome (if wmiInit then ohm.gpu_fan_rpm else none)
          (if hwPresent then hw.gpu_fan else none)
    ∧ (HardwareMonitor_get_stats wmiInit cpuName gpuName ohm tz nvInit nv
        hwPresent hw u r ru rt).gpu_fan_percent
      = (if nvInit then nv.gpu_fan_percent else none)
    ∧ (HardwareMonitor_get_stats wmiInit cpuName gpuName ohm tz nvInit nv
        hwPresent hw u r ru rt).gpu_power
      = (if wmiInit then ohm.gpu_power else none) :=
  ⟨merge_cpu_temp wmiInit cpuName gpuName ohm tz nvInit nv hwPresent hw u r ru rt,
   merge_cpu_clock wmiInit cpuName gpuName ohm tz nvInit nv hwPresent hw u r ru rt,
   merge_cpu_fan_rpm wmiInit cpuName gpuName ohm tz nvInit nv hwPresent hw u r ru rt,
   merge_gpu_temp wmiInit cpuName gpuName ohm tz nvInit nv hwPresent hw u r ru rt,
   merge_gpu_usage wmiInit cpuName gpuName ohm tz nvInit nv hwPresent hw u r ru rt,
   merge_gpu_clock wmiInit cpuName gpuName ohm tz nvInit nv hwPresent hw u r ru rt,
   merge_gpu_memory_used wmiInit cpuName gpuName ohm tz nvInit nv hwPresent hw u r ru rt,
   merge_gpu_memory_total wmiInit cpuName gpuName ohm tz nvInit nv hwPresent hw u r ru rt,
   merge_gpu_fan_rpm wmiInit cpuName gpuName ohm tz nvInit nv hwPresent hw u r ru rt,
   merge_gpu_fan_percent wmiInit cpuName gpuName ohm tz nvInit nv hwPresent hw u r ru rt,
   merge_gpu_power wmiInit cpuName gpuName ohm tz nvInit nv hwPresent hw u r ru rt⟩

/-- C9: when Tier A (the OHM/LHM classifier) yields no `cpu_temp`, the
thermal-zone fallback is attempted as part of Tier A — its result lands
in the Snapshot ahead of Tier C's gap-fill — and the fallback accepts a
converted Celsius value only strictly between 0 and 150. -/
theorem c9_cpu_temp_fallback (cpuName gpuName : Option String)
    (ohm : OhmDict) (tz : Option ℚ) (nvInit : Bool) (nv : NvDict)
    (hwPresent : Bool) (hw : HwDict) (u r ru rt : ℚ) :
    (HardwareMonitor_get_stats true cpuName gpuName { ohm with cpu_temp := none } tz
        nvInit nv hwPresent hw u r ru rt).cpu_temp
      = firstSome (get_cpu_temp_from_wmi true tz)
          (if hwPresent then hw.cpu_temp else none)
    ∧ (∀ tz' : Option ℚ, (get_cpu_temp_from_wmi true tz').all
        (fun c => decide (0 < c) && decide (c < 150)) = true) := by
  constructor
  · rw [merge_cpu_temp]
    simp
  · intro tz'
    unfold get_cpu_temp_from_wmi
    cases tz' with
    | none => rfl
    | some raw =>
      simp only [Bool.not_true, if_false]
      split_ifs <;> simp_all

/-- C7: in `NvidiaMonitor.get_stats` the five metric queries are
independent — each result field equals its own query's outcome, an
absent (failed) query leaves only that field out — and the memory fields
are the queried byte counts divided by `2 ^ 30`. -/
theorem c7_nvidia_independent (q : NvQueries) :
    (NvidiaMonitor_get_stats true true q).gpu_temp = q.temp
    ∧ (NvidiaMonitor_get_stats true true q).gpu_usage = q.util
    ∧ (NvidiaMonitor_get_stats true true q).gpu_memory_used
        = q.mem.map (fun mm => mm.1 / 2 ^ 30)
    ∧ (NvidiaMonitor_get_stats true true q).gpu_memory_total
        = q.mem.map (fun mm => mm.2 / 2 ^ 30)
    ∧ (NvidiaMonitor_get_stats true true q).gpu_clock = q.clock
    ∧ (NvidiaMonitor_get_stats true true q).gpu_fan_percent = q.fan := by
  have h : (1024 : ℚ) ^ 3 = 2 ^ 30 := by norm_num
  unfold NvidiaMonitor_get_stats
  simp [h]

/-- C3 as stated is false: the availability map returned by
`get_status_info` has exactly the keys `nvml`, `wmi`, `ohm_lhm`; there
is no entry at all for the HWiNFO shared-memory feed. -/
theorem c3_counterexample :
    (get_status_info true true true).map Prod.fst = ["nvml", "wmi", "ohm_lhm"]
    ∧ (get_status_info true true true).lookup "hwinfo" = none := by
  decide

/-- C3 amended: `get_status_info` returns exactly three entries —
`nvml` with the vendor feed's `initialized`, `wmi` with the WMI
monitor's `initialized`, and `ohm_lhm` with the OHM availability gated
on WMI initialization — and no entry for the HWiNFO feed. -/
theorem c3_amended (nvInit wmiInit ohmAvail : Bool) :
    (get_status_info nvInit wmiInit ohmAvail).map Prod.fst = ["nvml", "wmi", "ohm_lhm"]
    ∧ (get_status_info nvInit wmiInit ohmAvail).lookup "nvml" = some nvInit
    ∧ (get_status_info nvInit wmiInit ohmAvail).lookup "wmi" = some wmiInit
    ∧ (get_status_info nvInit wmiInit ohmAvail).lookup "ohm_lhm"
        = some (wmiInit && ohmAvail)
    ∧ (get_status_info nvInit wmiInit ohmAvail).lookup "hwinfo" = none := by
  cases nvInit <;> cases wmiInit <;> cases ohmAvail <;> decide

/-- C10: Snapshot.fps comes only from the HWiNFO feed: it equals the
first reading whose lowered label contains "framerate" or
"fullscreen fps" or strips to exactly "fps" and whose value is positive
(`fFps`), truncated to an integer, and only when that value exceeds 1;
otherwise it is `none`. -/
theorem c10_fps_rule (wmiInit : Bool) (cpuName gpuName : Option String)
    (ohm : OhmDict) (tz : Option ℚ) (nvInit : Bool) (nv : NvDict)
    (hwPresent : Bool) (l : List HWiNFOSensor) (u r ru rt : ℚ) :
    (HardwareMonitor_get_stats wmiInit cpuName gpuName ohm tz nvInit nv
        hwPresent (get_all_stats l) u r ru rt).fps
      = (if hwPresent then
          match l.findSome? fFps with
          | some v => if 1 < v then some (pyInt v) else none
          | none => none
        else none) := by
  have hfps : (get_all_stats l).fps = l.findSome? fFps := by
    simp only [get_all_stats]
    exact get_gpu_stats_fps l
  rw [merge_fps, hfps]

/-- C2 as stated is false: an OHM/LHM Temperature sensor named
"GPU Core" with value 200 (≥ 150) is classified as `gpu_temp` with no
range filter and reaches the Snapshot returned by the merge. -/
theorem c2_counterexample :
    (HardwareMonitor_get_stats true none none
        (get_all_ohm_stats true [⟨"GPU Core", "Temperature", "", some 200⟩])
        none false {} false {} 0 0 0 0).gpu_temp = some 200
    ∧ (150 : ℚ) ≤ 200 := by
  constructor
  · rfl
  · norm_num

/-- C2 amended: the (0, 150) range filter exists only on the thermal-zone
fallback path, and the OHM `cpu_temp` path additionally requires a
positive value; every accepted fallback Celsius value is strictly
between 0 and 150 and every OHM-classified `cpu_temp` is positive, but
no other temperature path filters values at all (see the
counterexample). -/
theorem c2_amended :
    (∀ tz : Option ℚ, (get_cpu_temp_from_wmi true tz).all
        (fun c => decide (0 < c) && decide (c < 150)) = true)
    ∧ (∀ l : List OhmSensor, ((get_all_ohm_stats true l).cpu_temp).all
        (fun v => decide (0 < v)) = true) := by
  constructor
  · intro tz
    unfold get_cpu_temp_from_wmi
    cases tz with
    | none => rfl
    | some raw =>
      simp only [Bool.not_true, if_false]
      split_ifs <;> simp_all
  · intro l
    rw [ohm_cpu_temp_char]
    exact findSome?_all fOhmCpuTemp (fun v => decide (0 < v))
      (fun s v hs => by simpa using fOhmCpuTemp_pos s v hs) l

/-- C4 as stated is false: with two acceptable CPU core-clock readings
3000 then 4000, `get_cpu_stats` keeps 4000 (the maximum), not the first
acceptable value 3000. -/
theorem c4_counterexample :
    (get_cpu_stats
      [⟨1, "AMD Ryzen 9", "Core 0 Clock", "MHz", 3000, 6⟩,
       ⟨2, "AMD Ryzen 9", "Core 1 Clock", "MHz", 4000, 6⟩]).cpu_clock = some 4000
    ∧ List.findSome? fCpuClockCand
      [⟨1, "AMD Ryzen 9", "Core 0 Clock", "MHz", 3000, 6⟩,
       ⟨2, "AMD Ryzen 9", "Core 1 Clock", "MHz", 4000, 6⟩] = some 3000
    ∧ (3000 : ℚ) ≠ 4000 := by
  refine ⟨by decide, by decide, by norm_num⟩

/-- C4 amended: per category, the kept value is the first acceptable
reading for the HWiNFO `cpu_temp`, `cpu_fan`, `fps` and all HWiNFO GPU
categories and for the OHM `cpu_temp` and `cpu_clock`; it is the MAXIMUM
of the acceptable values for the HWiNFO `cpu_clock`; and it is the LAST
acceptable reading for the OHM `gpu_temp`, `gpu_clock`, `gpu_usage` and
`gpu_fan_rpm`, while the OHM `cpu_fan_rpm` keeps the last cpu-ish fan,
else the first generic fan. -/
theorem c4_amended (l : List HWiNFOSensor) (L : List OhmSensor) :
    (get_cpu_stats l).cpu_temp = l.findSome? fCpuTemp
    ∧ (get_cpu_stats l).cpu_fan = l.findSome? fCpuFan
    ∧ (get_cpu_stats l).cpu_clock = (l.filterMap fCpuClockCand).max?
    ∧ (get_gpu_stats l).fps = l.findSome? fFps
    ∧ (get_gpu_stats l).gpu_temp = l.findSome? fGpuTemp
    ∧ (get_gpu_stats l).gpu_clock = l.findSome? fGpuClock
    ∧ (get_gpu_stats l).gpu_fan = l.findSome? fGpuFan
    ∧ (get_gpu_stats l).gpu_usage = l.findSome? fGpuUsage
    ∧ (get_all_ohm_stats true L).cpu_temp = L.findSome? fOhmCpuTemp
    ∧ (get_all_ohm_stats true L).cpu_clock = L.findSome? fOhmCpuClock
    ∧ (get_all_ohm_stats true L).gpu_temp = L.reverse.findSome? fOhmGpuTemp
    ∧ (get_all_ohm_stats true L).gpu_clock = L.reverse.findSome? fOhmGpuClock
    ∧ (get_all_ohm_stats true L).gpu_usage = L.reverse.findSome? fOhmGpuUsage
    ∧ (get_all_ohm_stats true L).gpu_fan_rpm = L.reverse.findSome? fOhmGpuFan
    ∧ (get_all_ohm_stats true L).cpu_fan_rpm
        = firstSome (L.reverse.findSome? fOhmCpuFanC) (L.findSome? fOhmCpuFanG) :=
  ⟨get_cpu_stats_cpu_temp l, get_cpu_stats_cpu_fan l, get_cpu_stats_cpu_clock l,
   get_gpu_stats_fps l, get_gpu_stats_gpu_temp l, get_gpu_stats_gpu_clock l,
   get_gpu_stats_gpu_fan l, get_gpu_stats_gpu_usage l,
   ohm_cpu_temp_char L, ohm_cpu_clock_char L, ohm_gpu_temp_char L,
   ohm_gpu_clock_char L, ohm_gpu_usage_char L, ohm_gpu_fan_char L,
   ohm_cpu_fan_char L⟩

/-- C5 as stated is false: a single HWiNFO reading (Usage kind, GPU
device name, label "d3d 3d framerate", value 60) contributes its value
to BOTH `fps` (the FPS scan) and `gpu_usage` (the GPU pass) in the same
`get_all_stats` output. -/
theorem c5_counterexample :
    (get_all_stats [⟨1, "nvidia", "d3d 3d framerate", "", 60, 7⟩]).fps = some 60
    ∧ (get_all_stats [⟨1, "nvidia", "d3d 3d framerate", "", 60, 7⟩]).gpu_usage = some 60
    ∧ (⟨1, "nvidia", "d3d 3d framerate", "", 60, 7⟩ : HWiNFOSensor).value = 60 := by
  decide

/-- C5 amended: within any single classification pass (the HWiNFO CPU
pass, the HWiNFO GPU pass, or the OHM pass) at most one category accepts
a given reading, so one pass never assigns one reading's value to two
categories; but `get_all_stats` runs the FPS scan and the GPU pass over
the same list, and a single reading may feed two categories across
passes (see the counterexample). -/
theorem c5_amended (s : HWiNFOSensor) (t : OhmSensor) :
    ([(fCpuTemp s).isSome, (fCpuClockCand s).isSome, (fCpuFan s).isSome].count true ≤ 1)
    ∧ ([(fGpuTemp s).isSome, (fGpuClock s).isSome, (fGpuFan s).isSome,
        (fGpuUsage s).isSome].count true ≤ 1)
    ∧ ([(fOhmCpuTemp t).isSome, (fOhmGpuTemp t).isSome, (fOhmCpuClock t).isSome,
        (fOhmGpuClock t).isSome, (fOhmCpuFanC t).isSome, (fOhmGpuFan t).isSome,
        (fOhmCpuFanG t).isSome, (fOhmGpuUsage t).isSome].count true ≤ 1) := by
  refine ⟨?_, ?_, ?_⟩
  · simp only [fCpuTemp, fCpuClockCand, fCpuFan]
    split_ifs <;> simp [List.count_cons, List.count_nil]
  · simp only [fGpuTemp, fGpuClock, fGpuFan, fGpuUsage]
    split_ifs <;> simp [List.count_cons, List.count_nil]
  · cases hv : t.Value
    · simp [fOhmCpuTemp, fOhmGpuTemp, fOhmCpuClock, fOhmGpuClock, fOhmCpuFanC,
        fOhmGpuFan, fOhmCpuFanG, fOhmGpuUsage, hv]
    · simp only [fOhmCpuTemp, fOhmGpuTemp, fOhmCpuClock, fOhmGpuClock, fOhmCpuFanC,
        fOhmGpuFan, fOhmCpuFanG, fOhmGpuUsage, hv]
      split_ifs <;> simp [List.count_cons, List.count_nil]

/-- C8: the classifiers are deterministic — two reading lists whose
elements agree on every field (`id`, `name`, `label`, `unit`, `value`,
`kind`) classify to identical outputs. -/
theorem c8_determinism (l1 l2 : List HWiNFOSensor)
    (h : List.Forall₂ (fun a b => a.id = b.id ∧ a.name = b.name ∧ a.label = b.label
      ∧ a.unit = b.unit ∧ a.value = b.value ∧ a.sensor_type = b.sensor_type) l1 l2) :
    get_all_stats l1 = get_all_stats l2
    ∧ get_cpu_stats l1 = get_cpu_stats l2
    ∧ get_gpu_stats l1 = get_gpu_stats l2 := by
  have hl : l1 = l2 := by
    induction h with
    | nil => rfl
    | @cons a b as bs hab htail ih =>
      have hhead : a = b := by
        rcases hab with ⟨h1, h2, h3, h4, h5, h6⟩
        cases a
        cases b
        simp_all
      rw [hhead, ih]
  rw [hl]
  exact ⟨rfl, rfl, rfl⟩

/-- Witness for C8 at a concrete pair of identical lists. -/
theorem c8_determinism_witness :
    get_all_stats [⟨1, "AMD Ryzen 9", "CPU Tctl/Tdie", "°C", 64, 1⟩]
      = get_all_stats [⟨1, "AMD Ryzen 9", "CPU Tctl/Tdie", "°C", 64, 1⟩] :=
  (c8_determinism _ _
    (List.Forall₂.cons ⟨rfl, rfl, rfl, rfl, rfl, rfl⟩ List.Forall₂.nil)).1

/-- Witness for C6 at a concrete all-zero 48-byte region (signature 0). -/
theorem c6_bad_signature_resync_witness :
    48 ≤ (List.replicate 48 0).length
    ∧ (read_sensors (fun _ => 0) (List.replicate 48 0)
        ⟨some 0, some 0, true, true⟩ ⟨true, true, 1, [0], [0]⟩).1 = [] :=
  ⟨by decide,
   (c6_bad_signature_resync (fun _ => 0) (List.replicate 48 0) true true 1 0 0
      (by decide) (by decide) (by decide) (by decide)).1⟩
